import Mathlib

/-!
Verification of the news-sentiment / stock-return pipeline.

The development shallowly embeds the repository's Python sources:

* `src/sentiment_analyzer.py` — CSV schema resolution (`load_data`,
  `analyze_sentiment`), VADER score wrapping (`get_sentiment_score`),
  sentiment labelling, and the trading-day alignment algorithm
  (`_align_to_trading_day`: convert to US/Eastern, 16:00 cutoff).
* `src/correlation_analysis.py` — per-ticker daily mean sentiment
  (`groupby('trading_date').mean()`), daily returns (`pct_change`),
  inner join and the insufficient-data guard of `analyze_correlation`.
* `src/stock_analysis.py` — `merge_with_sentiment`: left join of stock
  bars against daily sentiment with zero-fill for days without news.

Timestamps are modelled as civil date-times plus an optional fixed UTC
offset; instants are seconds since the Unix epoch (an `Int`).  Calendar
arithmetic uses the standard proleptic-Gregorian day-numbering
algorithm.  The US/Eastern zone (`pytz.timezone("US/Eastern")`) is
modelled by the rule in force since 2007: daylight saving from the
second Sunday of March 07:00 UTC to the first Sunday of November
06:00 UTC, offset UTC-4 inside that window and UTC-5 outside it.
Scores and prices are rationals; `pandas` missing values (`NaN`/`NaT`)
are `Option.none`.
-/

/-- Day number of a proleptic-Gregorian calendar date, day 0 = 1970-01-01
(the day-count algorithm underlying Python `datetime.date.toordinal`,
shifted to the Unix epoch). -/
def daysFromCivil (y : Int) (m d : Nat) : Int :=
  let y' : Int := if m ≤ 2 then y - 1 else y
  let era : Int := Int.fdiv y' 400
  let yoe : Int := y' - era * 400
  let mp : Nat := (m + 9) % 12
  let doy : Int := Int.ofNat ((153 * mp + 2) / 5) + (Int.ofNat d - 1)
  let doe : Int := yoe * 365 + Int.ediv yoe 4 - Int.ediv yoe 100 + doy
  era * 146097 + doe - 719468

/-- Inverse of `daysFromCivil`: (year, month, day) of a day number. -/
def civilFromDays (z : Int) : Int × Nat × Nat :=
  let z' : Int := z + 719468
  let era : Int := Int.fdiv z' 146097
  let doe : Int := z' - era * 146097
  let yoe : Int := Int.ediv (doe - Int.ediv doe 1460 + Int.ediv doe 36524 - Int.ediv doe 146096) 365
  let y : Int := yoe + era * 400
  let doy : Int := doe - (365 * yoe + Int.ediv yoe 4 - Int.ediv yoe 100)
  let mp : Int := Int.ediv (5 * doy + 2) 153
  let d : Int := doy - Int.ediv (153 * mp + 2) 5 + 1
  let m : Int := if mp < 10 then mp + 3 else mp - 9
  (if m ≤ 2 then y + 1 else y, m.toNat, d.toNat)

/-- A civil (wall-clock) date-time, as carried by a parsed pandas
timestamp before any zone arithmetic. -/
structure CivilDateTime where
  year : Int
  month : Nat
  day : Nat
  hour : Nat
  minute : Nat
  second : Nat
deriving DecidableEq

/-- A parsed pandas timestamp: a civil date-time plus an optional fixed
UTC offset in seconds east of UTC.  `utcOffset = none` models a
zone-naive timestamp (`ts.tzinfo is None`); `some 0` models an
explicitly UTC-tagged one. -/
structure Timestamp where
  civil : CivilDateTime
  utcOffset : Option Int
deriving DecidableEq

/-- Seconds since the Unix epoch of a civil date-time read in UTC. -/
def epochOfCivil (c : CivilDateTime) : Int :=
  daysFromCivil c.year c.month c.day * 86400
    + Int.ofNat (c.hour * 3600 + c.minute * 60 + c.second)

/-- Absolute instant of a timestamp, embedding lines 71-72 of
`sentiment_analyzer.py`: a zone-naive timestamp is localized to UTC
(`ts.tz_localize(pytz.UTC)`), i.e. its missing offset is taken as 0. -/
def toUTCInstant (ts : Timestamp) : Int :=
  epochOfCivil ts.civil - ts.utcOffset.getD 0

/-- First day number that is a Sunday and is ≥ `z` (day 3 = 1970-01-04
was a Sunday, so Sundays are exactly the days ≡ 3 mod 7). -/
def firstSundayOnOrAfter (z : Int) : Int :=
  z + Int.emod (3 - Int.emod z 7) 7

/-- UTC instant at which US/Eastern daylight saving begins in year `y`:
second Sunday of March, 02:00 EST = 07:00 UTC. -/
def dstStart (y : Int) : Int :=
  firstSundayOnOrAfter (daysFromCivil y 3 8) * 86400 + 7 * 3600

/-- UTC instant at which US/Eastern daylight saving ends in year `y`:
first Sunday of November, 02:00 EDT = 06:00 UTC. -/
def dstEnd (y : Int) : Int :=
  firstSundayOnOrAfter (daysFromCivil y 11 1) * 86400 + 6 * 3600

/-- Whether the instant `t` falls in US/Eastern daylight-saving time
(the rule in force since 2007, which `pytz` applies to current dates). -/
def isDST (t : Int) : Bool :=
  let y := (civilFromDays (Int.fdiv t 86400)).1
  decide (dstStart y ≤ t ∧ t < dstEnd y)

/-- UTC offset, in seconds, of US/Eastern local time at instant `t`:
-4 h during daylight saving, -5 h otherwise. -/
def easternOffset (t : Int) : Int :=
  if isDST t then -4 * 3600 else -5 * 3600

/-- The two components of `dt_est` that `_align_to_trading_day` reads:
`dt_est.date()` (as a day number) and `dt_est.hour`. -/
structure LocalTime where
  day : Int
  hour : Nat
deriving DecidableEq

/-- US/Eastern local calendar date and hour of the instant `t`,
embedding `ts.astimezone(pytz.timezone("US/Eastern"))` followed by
`.date()` and `.hour`. -/
def toEastern (t : Int) : LocalTime :=
  let s := t + easternOffset t
  { day := Int.fdiv s 86400, hour := (Int.ediv (Int.emod s 86400) 3600).toNat }

/-- Embedding of `SentimentAnalyzer._align_to_trading_day`
(`sentiment_analyzer.py` lines 65-78).  The argument is `none` when the
input timestamp is missing or unparseable (`pd.isna(dt)`, or
`pd.to_datetime(dt, errors="coerce")` yielding `NaT`); the result is
the trading date as a day number, `none` being the Unknown sentinel. -/
def alignToTradingDay (dt : Option Timestamp) : Option Int :=
  match dt with
  | none => none
  | some ts =>
    let t := toUTCInstant ts
    let L := toEastern t
    if 16 ≤ L.hour then some (L.day + 1) else some L.day

/-- C1: for every parseable timestamp, once converted to US Eastern
local time, `alignToTradingDay` assigns the event to the next calendar
date when the local hour is ≥ 16 (16:00:00 exactly counts as after
close), and to the same local calendar date when the local hour is in
[0, 15]. -/
theorem align_cutoff_rule (ts : Timestamp) :
    (16 ≤ (toEastern (toUTCInstant ts)).hour →
      alignToTradingDay (some ts) = some ((toEastern (toUTCInstant ts)).day + 1))
    ∧ ((toEastern (toUTCInstant ts)).hour ≤ 15 →
      alignToTradingDay (some ts) = some (toEastern (toUTCInstant ts)).day) := by
  constructor
  · intro h
    simp only [alignToTradingDay]
    rw [if_pos h]
  · intro h
    simp only [alignToTradingDay]
    rw [if_neg (by omega)]

/-- Witness for `align_cutoff_rule`: both branches discharged at
concrete instants (2024-03-15 21:30 UTC is after the cutoff in Eastern
time, 2024-03-15 19:30 UTC is before it). -/
theorem align_cutoff_rule_witness :
    alignToTradingDay (some ⟨⟨2024, 3, 15, 21, 30, 0⟩, some 0⟩)
        = some ((toEastern (toUTCInstant ⟨⟨2024, 3, 15, 21, 30, 0⟩, some 0⟩)).day + 1)
    ∧ alignToTradingDay (some ⟨⟨2024, 3, 15, 19, 30, 0⟩, some 0⟩)
        = some (toEastern (toUTCInstant ⟨⟨2024, 3, 15, 19, 30, 0⟩, some 0⟩)).day :=
  ⟨(align_cutoff_rule ⟨⟨2024, 3, 15, 21, 30, 0⟩, some 0⟩).1 (by decide),
   (align_cutoff_rule ⟨⟨2024, 3, 15, 19, 30, 0⟩, some 0⟩).2 (by decide)⟩

/-- C2: the UTC instant 2024-03-15T19:30:00Z aligns to trading date
2024-03-15 (Eastern local 15:30 EDT, hour 15, before the cutoff) and
2024-03-15T21:30:00Z aligns to 2024-03-16 (Eastern local 17:30 EDT,
hour 17, at or after the cutoff); the Eastern conversion uses the
daylight-saving offset UTC-4 on that date. -/
theorem align_scenarios_mar_2024 :
    alignToTradingDay (some ⟨⟨2024, 3, 15, 19, 30, 0⟩, some 0⟩)
        = some (daysFromCivil 2024 3 15)
    ∧ alignToTradingDay (some ⟨⟨2024, 3, 15, 21, 30, 0⟩, some 0⟩)
        = some (daysFromCivil 2024 3 16)
    ∧ (toEastern (toUTCInstant ⟨⟨2024, 3, 15, 19, 30, 0⟩, some 0⟩)).hour = 15
    ∧ (toEastern (toUTCInstant ⟨⟨2024, 3, 15, 21, 30, 0⟩, some 0⟩)).hour = 17
    ∧ easternOffset (toUTCInstant ⟨⟨2024, 3, 15, 19, 30, 0⟩, some 0⟩) = -(4 * 3600)
    ∧ easternOffset (toUTCInstant ⟨⟨2024, 3, 15, 21, 30, 0⟩, some 0⟩) = -(4 * 3600) := by
  decide

/-- C3: a zone-naive parseable timestamp is treated as UTC before the
Eastern conversion, so aligning it gives the same trading date as
aligning the same civil time explicitly tagged UTC. -/
theorem align_naive_as_utc (c : CivilDateTime) :
    alignToTradingDay (some ⟨c, none⟩) = alignToTradingDay (some ⟨c, some 0⟩) := rfl

/-- Result of `SentimentIntensityAnalyzer().polarity_scores(text)["compound"]`
for the external VADER scorer: `some v` when scoring succeeds with
compound score `v`, `none` when it raises (the wrapper's `except`
branch).  The scorer itself is a third-party black box; its boundary
contract (range and empty-text behaviour) appears as hypotheses of the
theorems that need it. -/
def VaderScorer : Type := String → Option ℚ

/-- Embedding of `SentimentAnalyzer.get_sentiment_score`
(`sentiment_analyzer.py` lines 57-63): 0.0 for missing text
(`pd.isna`), the scorer's compound value otherwise, and 0.0 again if
the scorer raises. -/
def get_sentiment_score (scorer : VaderScorer) (text : Option String) : ℚ :=
  match text with
  | none => 0
  | some t =>
    match scorer t with
    | some v => v
    | none => 0

/-- Embedding of the labelling lambda of `analyze_sentiment`
(`sentiment_analyzer.py` lines 90-92). -/
def sentimentLabel (s : ℚ) : String :=
  if s > 1/20 then "positive" else if s < -(1/20) then "negative" else "neutral"

/-- One row of the news CSV as consumed by `analyze_sentiment`: the
parsed timestamp column (after `pd.to_datetime(..., errors="coerce",
utc=True)`, hence `none` for missing/unparseable) and the text column
(`none` for a missing headline). -/
structure NewsRow where
  date : Option Timestamp
  text : Option String

/-- One output row of `analyze_sentiment`: the input columns plus
`sentiment_score`, `sentiment_label` and `trading_date` (the last
`none` when the timestamp was Unknown). -/
structure ScoredRow where
  date : Option Timestamp
  text : Option String
  sentiment_score : ℚ
  sentiment_label : String
  trading_date : Option Int

/-- Embedding of the row transformation of
`SentimentAnalyzer.analyze_sentiment` (`sentiment_analyzer.py` lines
89-94): each row gets a score, a label and an aligned trading date;
no row is dropped. -/
def analyzeRows (scorer : VaderScorer) (rows : List NewsRow) : List ScoredRow :=
  rows.map fun r =>
    { date := r.date
      text := r.text
      sentiment_score := get_sentiment_score scorer r.text
      sentiment_label := sentimentLabel (get_sentiment_score scorer r.text)
      trading_date := alignToTradingDay r.date }

/-- C6: the sentiment label is exactly "positive" when the score
exceeds 0.05, exactly "negative" when it is below -0.05, exactly
"neutral" otherwise, and is always one of these three strings. -/
theorem sentimentLabel_thresholds (s : ℚ) :
    (1/20 < s → sentimentLabel s = "positive")
    ∧ (s < -(1/20) → sentimentLabel s = "negative")
    ∧ (-(1/20) ≤ s → s ≤ 1/20 → sentimentLabel s = "neutral")
    ∧ (sentimentLabel s = "positive" ∨ sentimentLabel s = "negative"
        ∨ sentimentLabel s = "neutral") := by
  refine ⟨fun h => ?_, fun h => ?_, fun h1 h2 => ?_, ?_⟩
  · simp only [sentimentLabel]
    rw [if_pos h]
  · simp only [sentimentLabel]
    rw [if_neg (by linarith), if_pos h]
  · simp only [sentimentLabel]
    rw [if_neg (by linarith), if_neg (by linarith)]
  · simp only [sentimentLabel]
    split
    · exact Or.inl rfl
    · split
      · exact Or.inr (Or.inl rfl)
      · exact Or.inr (Or.inr rfl)

/-- Witness for `sentimentLabel_thresholds`: the three branches at the
concrete scores 1, -1 and 0. -/
theorem sentimentLabel_thresholds_witness :
    sentimentLabel 1 = "positive" ∧ sentimentLabel (-1) = "negative"
    ∧ sentimentLabel 0 = "neutral" :=
  ⟨(sentimentLabel_thresholds 1).1 (by norm_num),
   (sentimentLabel_thresholds (-1)).2.1 (by norm_num),
   (sentimentLabel_thresholds 0).2.2.1 (by norm_num) (by norm_num)⟩

/-- C8: whenever the external VADER scorer honours its boundary
contract (compound scores lie in [-1, 1], and empty text scores 0),
the wrapper `get_sentiment_score` returns a value in [-1, 1] for every
input and returns exactly 0 (labelled "neutral") for missing or empty
headline text, without raising. -/
theorem get_sentiment_score_contract (scorer : VaderScorer)
    (hrange : ∀ t v, scorer t = some v → -1 ≤ v ∧ v ≤ 1)
    (hempty : scorer "" = some 0) :
    (∀ text, -1 ≤ get_sentiment_score scorer text ∧ get_sentiment_score scorer text ≤ 1)
    ∧ get_sentiment_score scorer none = 0
    ∧ sentimentLabel (get_sentiment_score scorer none) = "neutral"
    ∧ get_sentiment_score scorer (some "") = 0
    ∧ sentimentLabel (get_sentiment_score scorer (some "")) = "neutral" := by
  have hscore : get_sentiment_score scorer (some "") = 0 := by
    simp only [get_sentiment_score, hempty]
  refine ⟨fun text => ?_, rfl, by norm_num [sentimentLabel, get_sentiment_score], hscore,
    by rw [hscore]; norm_num [sentimentLabel]⟩
  match text with
  | none => exact ⟨by norm_num [get_sentiment_score], by norm_num [get_sentiment_score]⟩
  | some t =>
    simp only [get_sentiment_score]
    cases hv : scorer t with
    | none => exact ⟨by norm_num, by norm_num⟩
    | some v => exact hrange t v hv

/-- Witness for `get_sentiment_score_contract`: the constant-zero
scorer satisfies the boundary contract, and the wrapper then yields 0
on empty text. -/
theorem get_sentiment_score_contract_witness :
    get_sentiment_score (fun _ => some 0) (some "") = 0
    ∧ sentimentLabel (get_sentiment_score (fun _ => some 0) (some "")) = "neutral" :=
  ⟨(get_sentiment_score_contract (fun _ => some 0)
      (fun _ v hv => by cases hv; exact ⟨by norm_num, by norm_num⟩) rfl).2.2.2.1,
   (get_sentiment_score_contract (fun _ => some 0)
      (fun _ v hv => by cases hv; exact ⟨by norm_num, by norm_num⟩) rfl).2.2.2.2⟩

/-- One row of the saved sentiment CSV as consumed by
`analyze_correlation`: the `stock` (ticker) column, the parsed
`trading_date` column (`none` for the Unknown sentinel / `NaT`) and
the `sentiment_score` column. -/
structure SentRow where
  stock : String
  trading_date : Option Int
  sentiment_score : ℚ
deriving DecidableEq

/-- Rows whose trading date equals `d`: one group of
`groupby('trading_date')` (`correlation_analysis.py` line 30).  Rows
with an Unknown (`NaT`) trading date belong to no group, as pandas
drops null group keys. -/
def rowsOn (d : Int) (rows : List SentRow) : List SentRow :=
  rows.filter fun r => r.trading_date = some d

/-- Running sum of sentiment scores of the group on date `d`. -/
def sumOn (d : Int) (rows : List SentRow) : ℚ :=
  ((rowsOn d rows).map (·.sentiment_score)).sum

/-- Size of the group on date `d` (the aggregate's news count). -/
def countOn (d : Int) (rows : List SentRow) : ℕ :=
  (rowsOn d rows).length

/-- Daily mean sentiment for date `d`, embedding
`groupby('trading_date')['sentiment_score'].mean()`
(`correlation_analysis.py` line 30): `none` when no row maps to `d`
(no group is emitted), the arithmetic mean of the group otherwise. -/
def dailyMeanOn (d : Int) (rows : List SentRow) : Option ℚ :=
  if rowsOn d rows = [] then none
  else some (sumOn d rows / (countOn d rows : ℚ))


/-- C7: the per-trading-date aggregate is the arithmetic mean over the
events mapped to that date; rows with an Unknown trading date are
excluded; the aggregate (mean and count) is invariant under
permutation of the input and computable by batch via partial
sums/counts; and two same-date events scored 0.8 and -0.2 aggregate to
mean 0.3 with count 2. -/
theorem dailyMean_aggregate :
    (∀ (d : Int) (r : SentRow) (rows : List SentRow), r.trading_date = none →
        dailyMeanOn d (r :: rows) = dailyMeanOn d rows
        ∧ countOn d (r :: rows) = countOn d rows)
    ∧ (∀ (d : Int) (rows₁ rows₂ : List SentRow), rows₁.Perm rows₂ →
        dailyMeanOn d rows₁ = dailyMeanOn d rows₂
        ∧ countOn d rows₁ = countOn d rows₂)
    ∧ (∀ (d : Int) (rows₁ rows₂ : List SentRow),
        dailyMeanOn d (rows₁ ++ rows₂) =
          if countOn d rows₁ + countOn d rows₂ = 0 then none
          else some ((sumOn d rows₁ + sumOn d rows₂)
            / ((countOn d rows₁ + countOn d rows₂ : ℕ) : ℚ)))
    ∧ dailyMeanOn 0 [⟨"T", some 0, 4/5⟩, ⟨"T", some 0, -(1/5)⟩] = some (3/10)
    ∧ countOn 0 [⟨"T", some 0, 4/5⟩, ⟨"T", some 0, -(1/5)⟩] = 2 := by
  refine ⟨fun d r rows hr => ?_, fun d rows₁ rows₂ h => ?_, fun d rows₁ rows₂ => ?_, ?_, ?_⟩
  · have hskip : rowsOn d (r :: rows) = rowsOn d rows := by
      simp only [rowsOn, List.filter_cons]
      rw [if_neg (by simp [hr])]
    exact ⟨by simp only [dailyMeanOn, sumOn, countOn, hskip],
      by simp only [countOn, hskip]⟩
  · have hperm : (rowsOn d rows₁).Perm (rowsOn d rows₂) := h.filter _
    have hsum : sumOn d rows₁ = sumOn d rows₂ := (hperm.map _).sum_eq
    have hcount : countOn d rows₁ = countOn d rows₂ := hperm.length_eq
    have hnil : (rowsOn d rows₁ = []) ↔ (rowsOn d rows₂ = []) := by
      rw [← List.length_eq_zero, ← List.length_eq_zero, hperm.length_eq]
    refine ⟨?_, hcount⟩
    simp only [dailyMeanOn, hsum, hcount]
    exact if_congr hnil rfl rfl
  · have happ : rowsOn d (rows₁ ++ rows₂) = rowsOn d rows₁ ++ rowsOn d rows₂ :=
      List.filter_append _ _
    have hsum : sumOn d (rows₁ ++ rows₂) = sumOn d rows₁ + sumOn d rows₂ := by
      simp only [sumOn, happ, List.map_append, List.sum_append]
    have hcount : countOn d (rows₁ ++ rows₂) = countOn d rows₁ + countOn d rows₂ := by
      simp only [countOn, happ, List.length_append]
    by_cases hz : countOn d rows₁ + countOn d rows₂ = 0
    · rw [if_pos hz]
      have hnil : rowsOn d (rows₁ ++ rows₂) = [] := by
        rw [← List.length_eq_zero, ← countOn, hcount]
        exact hz
      simp only [dailyMeanOn, if_pos hnil]
    · rw [if_neg hz]
      have hne : ¬ rowsOn d (rows₁ ++ rows₂) = [] := by
        intro hx
        exact hz (by rw [← hcount, countOn, hx]; rfl)
      simp only [dailyMeanOn, if_neg hne, hsum, hcount]
  · norm_num [dailyMeanOn, rowsOn, sumOn, countOn, List.filter]
    intro h
    simp at h
  · norm_num [countOn, rowsOn, List.filter]

/-- Witness for `dailyMean_aggregate`: reordering the two scenario-E
events leaves the daily aggregate unchanged. -/
theorem dailyMean_aggregate_witness :
    dailyMeanOn 0 [(⟨"T", some 0, 4/5⟩ : SentRow), ⟨"T", some 0, -(1/5)⟩]
      = dailyMeanOn 0 [⟨"T", some 0, -(1/5)⟩, ⟨"T", some 0, 4/5⟩] :=
  (dailyMean_aggregate.2.1 0
    [(⟨"T", some 0, 4/5⟩ : SentRow), ⟨"T", some 0, -(1/5)⟩]
    [⟨"T", some 0, -(1/5)⟩, ⟨"T", some 0, 4/5⟩]
    (List.Perm.swap _ _ _)).1

/-- One row of a per-ticker stock CSV as used by `analyze_correlation`:
the parsed `Date` column (a calendar day number) and the `Close`
price. -/
structure StockRow where
  date : Int
  close : ℚ
deriving DecidableEq

/-- Insertion of a stock row into a date-sorted list, keeping earlier
rows first among equal dates (stable sort). -/
def insertByDate (b : StockRow) : List StockRow → List StockRow
  | [] => [b]
  | x :: xs => if b.date < x.date then b :: x :: xs else x :: insertByDate b xs

/-- Embedding of `df_stock.sort_values(date_col)`
(`correlation_analysis.py` line 50). -/
def sortByDate : List StockRow → List StockRow
  | [] => []
  | x :: xs => insertByDate x (sortByDate xs)

/-- Daily returns of the rows after the first, each computed from the
previous row's close. -/
def returnsAfter (prev : StockRow) : List StockRow → List (Int × Option ℚ)
  | [] => []
  | x :: xs => (x.date, some (x.close / prev.close - 1)) :: returnsAfter x xs

/-- Embedding of `df_stock['Close'].pct_change()`
(`correlation_analysis.py` line 51): each row is paired with its daily
return, `none` for the first row, which has no predecessor. -/
def withReturns : List StockRow → List (Int × Option ℚ)
  | [] => []
  | x :: xs => (x.date, none) :: returnsAfter x xs

/-- Embedding of the ticker filter
`df_sentiment[df_sentiment['stock'] == ticker]`
(`correlation_analysis.py` line 23). -/
def tickerRowsOf (ticker : String) (sent : List SentRow) : List SentRow :=
  sent.filter fun r => r.stock = ticker

/-- Sorted insertion of a date into a list of dates. -/
def insertDate (n : Int) : List Int → List Int
  | [] => [n]
  | x :: xs => if n < x then n :: x :: xs else x :: insertDate n xs

/-- Ascending insertion sort of a list of dates. -/
def sortDates : List Int → List Int
  | [] => []
  | x :: xs => insertDate x (sortDates xs)

/-- The distinct known trading dates of a row set, ascending: the group
keys of `groupby('trading_date')`, which drops null keys and sorts. -/
def knownDates (rows : List SentRow) : List Int :=
  sortDates (rows.filterMap (·.trading_date)).dedup

/-- Embedding of the `daily_sentiment` frame of
`correlation_analysis.py` lines 30-31: one (trading_date,
daily_sentiment mean) pair per known trading date. -/
def dailySentimentOf (rows : List SentRow) : List (Int × ℚ) :=
  (knownDates rows).filterMap fun d => (dailyMeanOn d rows).map fun m => (d, m)

/-- Embedding of the inner join of `daily_sentiment` with the stock
frame on `trading_date == Date` (`correlation_analysis.py` line 55):
for each daily-sentiment row, one output row per stock row with the
same date, carrying the daily mean sentiment and the (possibly
missing) daily return. -/
def mergedOf (ticker : String) (sent : List SentRow) (stock : List StockRow) :
    List (ℚ × Option ℚ) :=
  let daily := dailySentimentOf (tickerRowsOf ticker sent)
  let rets := withReturns (sortByDate stock)
  daily.flatMap fun p => (rets.filter fun q => q.1 = p.1).map fun q => (p.2, q.2)

/-- The (sentiment, return) pairs over which `Series.corr` computes the
Pearson coefficient: pairs whose return is missing are dropped, as
pandas correlation ignores null entries pairwise. -/
def definedPairs (merged : List (ℚ × Option ℚ)) : List (ℚ × ℚ) :=
  merged.filterMap fun p => p.2.map fun r => (p.1, r)

/-- Outcome reported by `analyze_correlation`: the early-return
messages of `correlation_analysis.py` and, in the success branch, the
Pearson correlation (delegated to the pandas library call
`merged_df['daily_sentiment'].corr(merged_df['daily_return'])`)
carried symbolically with the pairs it is computed from. -/
inductive CorrResult where
  | noNewsData : CorrResult
  | insufficientData : CorrResult
  | pearson (pairs : List (ℚ × ℚ)) : CorrResult
deriving DecidableEq

/-- Embedding of `analyze_correlation` (`correlation_analysis.py`
lines 6-65) from the point where both CSV files are loaded: filter the
ticker, aggregate daily means, join with daily returns, and guard the
correlation behind the two-observation minimum (lines 59-61). -/
def analyze_correlation (ticker : String) (sent : List SentRow) (stock : List StockRow) :
    CorrResult :=
  if tickerRowsOf ticker sent = [] then .noNewsData
  else if (mergedOf ticker sent stock).length < 2 then .insufficientData
  else .pearson (definedPairs (mergedOf ticker sent stock))

/-- C5: with news for the ticker present, fewer than 2 joined
observations make `analyze_correlation` report the distinct
non-numeric insufficient-data status and no numeric correlation, while
2 or more joined observations make it report the Pearson correlation
of the joined pairs. -/
theorem analyze_correlation_guard (ticker : String) (sent : List SentRow)
    (stock : List StockRow) (h : tickerRowsOf ticker sent ≠ []) :
    ((mergedOf ticker sent stock).length < 2 →
      analyze_correlation ticker sent stock = .insufficientData)
    ∧ (2 ≤ (mergedOf ticker sent stock).length →
      analyze_correlation ticker sent stock
        = .pearson (definedPairs (mergedOf ticker sent stock)))
    ∧ (∀ pairs, (CorrResult.insufficientData : CorrResult) ≠ .pearson pairs) := by
  refine ⟨fun hlt => ?_, fun hge => ?_, fun pairs hx => by cases hx⟩
  · simp only [analyze_correlation, if_neg h]
    rw [if_pos hlt]
  · simp only [analyze_correlation, if_neg h]
    rw [if_neg (by omega)]

/-- Witness for `analyze_correlation_guard`: a single joined
observation yields the insufficient-data status, two joined
observations yield the Pearson report. -/
theorem analyze_correlation_guard_witness :
    analyze_correlation "A" [⟨"A", some 0, 1⟩] [⟨0, 10⟩, ⟨1, 11⟩]
      = CorrResult.insufficientData
    ∧ analyze_correlation "A" [⟨"A", some 0, 1⟩, ⟨"A", some 1, 2⟩] [⟨0, 10⟩, ⟨1, 11⟩]
      = CorrResult.pearson (definedPairs
          (mergedOf "A" [⟨"A", some 0, 1⟩, ⟨"A", some 1, 2⟩] [⟨0, 10⟩, ⟨1, 11⟩])) :=
  ⟨(analyze_correlation_guard "A" [⟨"A", some 0, 1⟩] [⟨0, 10⟩, ⟨1, 11⟩]
      (by decide)).1 (by decide),
   (analyze_correlation_guard "A" [⟨"A", some 0, 1⟩, ⟨"A", some 1, 2⟩] [⟨0, 10⟩, ⟨1, 11⟩]
      (by decide)).2.1 (by decide)⟩

/-- C4 (counterexample): no count of Unknown rows is surfaced to the
caller.  Adding a row whose timestamp failed to parse (trading date
`none`) to the sentiment data changes neither the reported correlation
outcome nor the daily aggregate (mean or count) of any date, even
though the number of Unknown rows differs — the Unknown rows are
silently excluded downstream without any surfaced count. -/
theorem unknown_rows_not_counted :
    analyze_correlation "A" [⟨"A", some 0, 1⟩, ⟨"A", none, 1⟩] [⟨0, 10⟩, ⟨1, 11⟩]
      = analyze_correlation "A" [⟨"A", some 0, 1⟩] [⟨0, 10⟩, ⟨1, 11⟩]
    ∧ dailyMeanOn 0 [⟨"A", some 0, 1⟩, ⟨"A", none, 1⟩]
      = dailyMeanOn 0 [⟨"A", some 0, 1⟩]
    ∧ countOn 0 [⟨"A", some 0, 1⟩, ⟨"A", none, 1⟩] = countOn 0 [⟨"A", some 0, 1⟩]
    ∧ ([(⟨"A", some 0, 1⟩ : SentRow), ⟨"A", none, 1⟩].filter
        (fun r => r.trading_date = none)).length
      ≠ ([(⟨"A", some 0, 1⟩ : SentRow)].filter
        (fun r => r.trading_date = none)).length :=
  ⟨rfl, rfl, rfl, by decide⟩

/-- C4 (amended): `alignToTradingDay` is total and never raises — a
missing or unparseable timestamp yields the explicit Unknown (`none`)
sentinel and every parseable timestamp yields a trading date — and
`analyzeRows` keeps every input row (Unknown rows are not dropped from
the per-row output), though no count of Unknown rows is computed. -/
theorem align_total_unknown_sentinel :
    alignToTradingDay none = none
    ∧ (∀ ts : Timestamp, (alignToTradingDay (some ts)).isSome = true)
    ∧ (∀ (scorer : VaderScorer) (rows : List NewsRow),
        (analyzeRows scorer rows).length = rows.length) := by
  refine ⟨rfl, fun ts => ?_, fun scorer rows => List.length_map _ _⟩
  simp only [alignToTradingDay]
  split <;> rfl

/-- ASCII lower-casing of a character, as Python `str.lower` acts on
the ASCII column names involved. -/
def lowerChar (c : Char) : Char :=
  if 'A' ≤ c ∧ c ≤ 'Z' then Char.ofNat (c.toNat + 32) else c

/-- Embedding of Python `c.lower()` on a column name. -/
def lowerStr (s : String) : String := String.mk (s.data.map lowerChar)

/-- The timestamp-column aliases of `load_data`
(`sentiment_analyzer.py` line 49). -/
def dateAliases : List String := ["date", "datetime", "time"]

/-- The text-column aliases of `analyze_sentiment`
(`sentiment_analyzer.py` line 84). -/
def textAliases : List String := ["headline", "title", "news", "text"]

/-- Embedding of the schema step of `SentimentAnalyzer.load_data`
(`sentiment_analyzer.py` lines 49-54) on the file's column-name list:
raise `ValueError` when no column lower-cases to a date alias,
otherwise rename the first matching column to `date`. -/
def load_data_schema (cols : List String) : Except String (List String) :=
  match cols.filter (fun c => lowerStr c ∈ dateAliases) with
  | [] => .error "No date/datetime column found in the input CSV."
  | d :: _ => .ok (cols.map fun c => if c = d then "date" else c)

/-- Embedding of the text-column resolution of `analyze_sentiment`
(`sentiment_analyzer.py` lines 83-87): keep `columnName` when present
verbatim, otherwise take the first column lower-casing to a text
alias, otherwise raise `ValueError`. -/
def resolveTextColumn (columnName : String) (cols : List String) : Except String String :=
  if columnName ∈ cols then .ok columnName
  else
    match cols.filter (fun c => lowerStr c ∈ textAliases) with
    | [] => .error ("Text column '" ++ columnName ++ "' not found.")
    | c :: _ => .ok c

/-- The schema pipeline a news file goes through: `load_data` followed
by `analyze_sentiment` with the default text column name `headline`;
the result is the renamed column list and the resolved text column. -/
def loadNews (cols : List String) : Except String (List String × String) :=
  match load_data_schema cols with
  | .error e => .error e
  | .ok cols2 =>
    match resolveTextColumn "headline" cols2 with
    | .error e => .error e
    | .ok c => .ok (cols2, c)

/-- A date alias is never a text alias (used because the rename of the
date column cannot erase a text-alias column). -/
theorem date_alias_not_text {s : String} (h : s ∈ dateAliases) : s ∉ textAliases := by
  simp only [dateAliases, List.mem_cons, List.not_mem_nil, or_false] at h
  rcases h with rfl | rfl | rfl <;> decide

/-- C9 (counterexample): the schema error reported to the caller does
not include the list of the file's available columns — files with
different column lists produce byte-identical error messages, for both
the missing-timestamp case and the missing-text case. -/
theorem schema_error_message_fixed :
    loadNews ["foo", "bar"] = Except.error "No date/datetime column found in the input CSV."
    ∧ loadNews ["baz"] = Except.error "No date/datetime column found in the input CSV."
    ∧ loadNews ["Time", "Volume"] = Except.error "Text column 'headline' not found."
    ∧ loadNews ["Datetime", "stuff"] = Except.error "Text column 'headline' not found."
    ∧ (["foo", "bar"] : List String) ≠ ["baz"]
    ∧ (["Time", "Volume"] : List String) ≠ ["Datetime", "stuff"] :=
  ⟨rfl, rfl, rfl, rfl, by decide, by decide⟩

/-- C9 (amended): loading a news file fails with a schema error
exactly when no column lower-cases to a timestamp alias
(date/datetime/time) or no column lower-cases to a text alias
(headline/title/news/text); the error carries one of two fixed
messages, which do not include the list of available columns. -/
theorem loadNews_schema_iff (cols : List String) :
    ((∃ e, loadNews cols = Except.error e) ↔
      ((∀ c ∈ cols, lowerStr c ∉ dateAliases) ∨ (∀ c ∈ cols, lowerStr c ∉ textAliases)))
    ∧ (∀ e, loadNews cols = Except.error e →
        e = "No date/datetime column found in the input CSV."
        ∨ e = "Text column 'headline' not found.") := by
  have hmsg : ∀ e, loadNews cols = Except.error e →
      e = "No date/datetime column found in the input CSV."
      ∨ e = "Text column 'headline' not found." := by
    intro e he
    unfold loadNews at he
    cases h1 : load_data_schema cols with
    | error e1 =>
      rw [h1] at he
      cases he
      unfold load_data_schema at h1
      split at h1
      · cases h1
        exact Or.inl rfl
      · cases h1
    | ok cols2 =>
      rw [h1] at he
      dsimp only at he
      cases h2 : resolveTextColumn "headline" cols2 with
      | ok c =>
        rw [h2] at he
        cases he
      | error e2 =>
        rw [h2] at he
        cases he
        unfold resolveTextColumn at h2
        split at h2
        · cases h2
        · split at h2
          · cases h2
            exact Or.inr rfl
          · cases h2
  refine ⟨?_, hmsg⟩
  cases hd : cols.filter (fun c => lowerStr c ∈ dateAliases) with
  | nil =>
    have hnone : ∀ c ∈ cols, lowerStr c ∉ dateAliases := by
      intro c hc
      have := List.filter_eq_nil_iff.mp hd c hc
      simpa using this
    constructor
    · intro _
      exact Or.inl hnone
    · intro _
      exact ⟨"No date/datetime column found in the input CSV.",
        by simp only [loadNews, load_data_schema, hd]⟩
  | cons d rest =>
    have hmemd : d ∈ cols.filter (fun c => lowerStr c ∈ dateAliases) := by
      rw [hd]; exact List.mem_cons_self _ _
    have hd_cols : d ∈ cols := (List.mem_filter.mp hmemd).1
    have hd_alias : lowerStr d ∈ dateAliases := by
      have := (List.mem_filter.mp hmemd).2
      simpa using this
    set cols2 := cols.map (fun c => if c = d then "date" else c) with hcols2
    have hstep : loadNews cols =
        match resolveTextColumn "headline" cols2 with
        | .error e => .error e
        | .ok c => .ok (cols2, c) := by
      simp only [loadNews, load_data_schema, hd]
    have hiff : (∀ c ∈ cols2, lowerStr c ∉ textAliases) ↔
        (∀ c ∈ cols, lowerStr c ∉ textAliases) := by
      constructor
      · intro h c hc hq
        by_cases hcd : c = d
        · exact date_alias_not_text hd_alias (hcd ▸ hq)
        · exact h c (by
            rw [hcols2]
            exact List.mem_map.mpr ⟨c, hc, by rw [if_neg hcd]⟩) hq
      · intro h c hc hq
        rcases List.mem_map.mp hc with ⟨a, ha, rfl⟩
        by_cases had : a = d
        · rw [if_pos had] at hq
          exact absurd hq (by decide)
        · rw [if_neg had] at hq
          exact h a ha hq
    have hheadline : "headline" ∈ cols2 →
        ¬ (cols2.filter (fun c => lowerStr c ∈ textAliases) = []) := by
      intro hmem hnil
      have := List.filter_eq_nil_iff.mp hnil "headline" hmem
      simp only [decide_eq_true_eq] at this
      exact this (by decide)
    constructor
    · intro ⟨e, he⟩
      right
      rw [hstep] at he
      rw [← hiff]
      cases hres : resolveTextColumn "headline" cols2 with
      | ok c => rw [hres] at he; cases he
      | error e2 =>
        simp only [resolveTextColumn] at hres
        split at hres
        · cases hres
        · split at hres
          · rename_i hnil
            intro c hc hq
            have := List.filter_eq_nil_iff.mp hnil c hc
            simp only [decide_eq_true_eq] at this
            exact this hq
          · cases hres
    · intro hdisj
      rcases hdisj with hleft | hright
      · exact absurd hd_alias (hleft d hd_cols)
      · have hnil : cols2.filter (fun c => lowerStr c ∈ textAliases) = [] := by
          rw [List.filter_eq_nil_iff]
          intro c hc
          simp only [decide_eq_true_eq]
          exact (hiff.mpr hright) c hc
        have hnotmem : "headline" ∉ cols2 := fun hmem => hheadline hmem hnil
        refine ⟨"Text column 'headline' not found.", ?_⟩
        rw [hstep]
        simp only [resolveTextColumn, if_neg hnotmem, hnil]
        rfl

/-- Witness for `loadNews_schema_iff`: at the concrete column list
`["foo"]` the pipeline errors, the alias condition holds, and the
message is one of the two fixed strings. -/
theorem loadNews_schema_iff_witness :
    ((∀ c ∈ (["foo"] : List String), lowerStr c ∉ dateAliases)
      ∨ (∀ c ∈ (["foo"] : List String), lowerStr c ∉ textAliases))
    ∧ ("No date/datetime column found in the input CSV."
          = "No date/datetime column found in the input CSV."
        ∨ "No date/datetime column found in the input CSV."
          = "Text column 'headline' not found.") :=
  ⟨(loadNews_schema_iff ["foo"]).1.mp
      ⟨"No date/datetime column found in the input CSV.", rfl⟩,
   (loadNews_schema_iff ["foo"]).2 "No date/datetime column found in the input CSV." rfl⟩

/-- One row of the stock frame of `StockAnalyzer` at merge time: the
`Date` index (a datetime, here epoch seconds) and the `Close` price
standing for the data columns carried along. -/
structure StockBar where
  date : Int
  close : ℚ
deriving DecidableEq

/-- One row of the daily aggregated sentiment frame consumed by
`merge_with_sentiment` (produced by the aggregation stage with columns
`trading_date`, `mean_sentiment`, `news_count`). -/
structure DailySent where
  trading_date : Int
  mean_sentiment : ℚ
  news_count : ℚ
deriving DecidableEq

/-- One row of the merged frame returned by `merge_with_sentiment`. -/
structure MergedRow where
  date : Int
  close : ℚ
  mean_sentiment : ℚ
  news_count : ℚ
deriving DecidableEq

/-- The merge key of `merge_with_sentiment`: the calendar-date
component of the bar's `Date` (`stock_df_reset['Date'].dt.date`,
`stock_analysis.py` line 124), as a day number. -/
def dateOnly (b : StockBar) : Int := Int.fdiv b.date 86400

/-- Embedding of `StockAnalyzer.merge_with_sentiment`
(`stock_analysis.py` lines 104-143): left join of the stock bars
against the daily sentiment on `Date_Only == trading_date`, keeping
every bar; a bar without a matching sentiment row gets
`mean_sentiment` and `news_count` filled with 0 (`fillna(0)`,
lines 139-140). -/
def merge_with_sentiment (stock : List StockBar) (daily : List DailySent) : List MergedRow :=
  stock.flatMap fun b =>
    let ms := daily.filter fun s => s.trading_date = dateOnly b
    if ms = [] then [⟨b.date, b.close, 0, 0⟩]
    else ms.map fun s => ⟨b.date, b.close, s.mean_sentiment, s.news_count⟩

/-- When the daily-sentiment trading dates are pairwise distinct, at
most one row matches any key. -/
theorem filter_trading_date_length_le_one (daily : List DailySent)
    (h : (daily.map (·.trading_date)).Nodup) (d : Int) :
    (daily.filter fun s => s.trading_date = d).length ≤ 1 := by
  induction daily with
  | nil => simp
  | cons s t ih =>
    rw [List.map_cons, List.nodup_cons] at h
    rw [List.filter_cons]
    by_cases hs : s.trading_date = d
    · rw [if_pos (by simpa using hs)]
      have ht : t.filter (fun s => s.trading_date = d) = [] := by
        rw [List.filter_eq_nil_iff]
        intro x hx
        simp only [decide_eq_true_eq]
        intro hxd
        exact h.1 (List.mem_map.mpr ⟨x, hx, by rw [hxd, hs]⟩)
      rw [ht]
      simp
    · rw [if_neg (by simpa using hs)]
      exact ih h.2

/-- C10: when the daily-sentiment trading dates are pairwise distinct
(as produced by a group-by), `merge_with_sentiment` performs a left
join keyed on the calendar-date component of the stock `Date`: the
merged frame carries exactly one row per loaded stock bar, in order,
and a bar whose date matches no sentiment row gets `mean_sentiment`
and `news_count` equal to 0 rather than left missing. -/
theorem merge_with_sentiment_left_join (stock : List StockBar) (daily : List DailySent)
    (h : (daily.map (·.trading_date)).Nodup) :
    (merge_with_sentiment stock daily).map (fun m => (m.date, m.close))
      = stock.map (fun b => (b.date, b.close))
    ∧ (merge_with_sentiment stock daily).length = stock.length
    ∧ (∀ b ∈ stock, (∀ s ∈ daily, s.trading_date ≠ dateOnly b) →
        (⟨b.date, b.close, 0, 0⟩ : MergedRow) ∈ merge_with_sentiment stock daily) := by
  have key : ∀ b : StockBar,
      ((if (daily.filter fun s => s.trading_date = dateOnly b) = [] then
          [(⟨b.date, b.close, 0, 0⟩ : MergedRow)]
        else (daily.filter fun s => s.trading_date = dateOnly b).map
          fun s => ⟨b.date, b.close, s.mean_sentiment, s.news_count⟩).map
            (fun m => (m.date, m.close))) = [(b.date, b.close)] := by
    intro b
    by_cases hnil : (daily.filter fun s => s.trading_date = dateOnly b) = []
    · rw [if_pos hnil]
      rfl
    · rw [if_neg hnil]
      obtain ⟨s, hs⟩ : ∃ s, (daily.filter fun s => s.trading_date = dateOnly b) = [s] := by
        cases hc : (daily.filter fun s => s.trading_date = dateOnly b) with
        | nil => exact absurd hc hnil
        | cons s tl =>
          refine ⟨s, ?_⟩
          have hlen1 := filter_trading_date_length_le_one daily h (dateOnly b)
          rw [hc] at hlen1
          simp only [List.length_cons] at hlen1
          have htl : tl = [] := List.length_eq_zero.mp (by omega)
          rw [htl]
      rw [hs]
      rfl
  have hproj : (merge_with_sentiment stock daily).map (fun m => (m.date, m.close))
      = stock.map (fun b => (b.date, b.close)) := by
    induction stock with
    | nil => rfl
    | cons b t ih =>
      simp only [merge_with_sentiment, List.flatMap_cons, List.map_append, List.map_cons]
      simp only [merge_with_sentiment, List.map_cons] at ih
      rw [ih]
      have := key b
      simp only [List.map_cons] at this ⊢
      rw [this]
      rfl
  refine ⟨hproj, ?_, ?_⟩
  · have h1 : ((merge_with_sentiment stock daily).map (fun m => (m.date, m.close))).length
        = (stock.map (fun b => (b.date, b.close))).length := by rw [hproj]
    rw [List.length_map, List.length_map] at h1
    exact h1
  · intro b hb hnone
    have hnil : (daily.filter fun s => s.trading_date = dateOnly b) = [] := by
      rw [List.filter_eq_nil_iff]
      intro s hsmem
      simp only [decide_eq_true_eq]
      exact hnone s hsmem
    refine List.mem_flatMap.mpr ⟨b, hb, ?_⟩
    dsimp only
    rw [if_pos hnil]
    exact List.mem_singleton.mpr rfl

/-- Witness for `merge_with_sentiment_left_join`: two stock bars (days
0 and 1) joined against a single sentiment row for day 1 keep both
bars, and the unmatched day-0 bar appears with 0/0 fill. -/
theorem merge_with_sentiment_left_join_witness :
    (merge_with_sentiment [⟨0, 10⟩, ⟨86400, 11⟩] [⟨1, 1/2, 3⟩]).map
        (fun m => (m.date, m.close))
      = ([⟨0, 10⟩, ⟨86400, 11⟩] : List StockBar).map (fun b => (b.date, b.close))
    ∧ (⟨0, 10, 0, 0⟩ : MergedRow) ∈ merge_with_sentiment [⟨0, 10⟩, ⟨86400, 11⟩] [⟨1, 1/2, 3⟩] :=
  ⟨(merge_with_sentiment_left_join [⟨0, 10⟩, ⟨86400, 11⟩] [⟨1, 1/2, 3⟩] (by decide)).1,
   (merge_with_sentiment_left_join [⟨0, 10⟩, ⟨86400, 11⟩] [⟨1, 1/2, 3⟩] (by decide)).2.2
     ⟨0, 10⟩ (List.mem_cons_self _ _)
     (fun s hs => by rw [List.mem_singleton.mp hs]; decide)⟩
